import Mathlib

/-!
Shallow embedding of the notesdesktop bootstrap shim.

Source files embedded:
- src-tauri/src/lib.rs: the shared bootstrap function `run`, which configures a
  tauri builder with five capability plugins and an empty setup hook, then
  hands control to the framework's run loop and aborts on startup failure;
- src-tauri/src/mobile.rs: the mobile entry point `mobile_main`, which
  forwards unconditionally to `run`.

The tauri framework itself is external to the repository; its boundary
behaviour (builder configuration, setup-hook invocation, blocking run loop,
startup error) is modelled from the spec's external-interface section and is
marked as such on each definition.

The app handle type is kept abstract (a type parameter `α`), and the single
environmental choice the framework makes — whether the run loop fails to
start — is passed in as an `Option String` carrying the startup error.
Every observable action of a bootstrap invocation is recorded in a trace of
events, so ordering, counting and absence properties can be stated directly.
-/

/-- The five capability plugins whose initializers the bootstrap registers
(tauri_plugin_shell, tauri_plugin_opener, tauri_plugin_notification,
tauri_plugin_dialog, tauri_plugin_fs). -/
inductive Plugin where
  | shell
  | opener
  | notification
  | dialog
  | fs
  deriving DecidableEq, BEq, Repr

/-- Observable events of one bootstrap invocation.  Constructors exist for
actions the code could in principle perform (returning control to the caller,
unregistering a plugin as cleanup) so that their absence is a contentful
statement about the trace. -/
inductive Event where
  | builderConstructed
  | pluginRegistered (p : Plugin)
  | setupInstalled
  | hookInvoked
  | runLoopEntered
  | aborted (msg : String)
  | pluginUnregistered (p : Plugin)
  deriving DecidableEq, BEq, Repr

/-- Final outcome of one bootstrap invocation, as seen by the caller of
`run`: either the run loop blocks for the remainder of the process lifetime,
or the process is terminated by a fatal abort, or control returns normally to
the caller (a constructor the code never produces). -/
inductive Outcome where
  | blockedInRunLoop
  | fatalAbort (msg : String)
  | returnedToCaller
  deriving DecidableEq, BEq, Repr

/-- The tauri builder state, over an abstract app-handle type `α`: the ordered
list of registered plugins, the optionally installed setup hook (taking the
app handle and returning success with the possibly-updated handle, or a
startup error), and the trace of configuration events so far. -/
structure Builder (α : Type) where
  plugins : List Plugin
  setupHook : Option (α → Except String (Unit × α))
  trace : List Event

/-- tauri::Builder::default(): a fresh builder with no plugins and no hook. -/
def Builder.default (α : Type) : Builder α :=
  { plugins := [], setupHook := none, trace := [Event.builderConstructed] }

/-- Builder::plugin: registers one plugin, appending it to the ordered list. -/
def Builder.plugin (b : Builder α) (p : Plugin) : Builder α :=
  { b with plugins := b.plugins ++ [p],
           trace := b.trace ++ [Event.pluginRegistered p] }

/-- Builder::setup: installs the setup hook. -/
def Builder.setup (b : Builder α) (h : α → Except String (Unit × α)) : Builder α :=
  { b with setupHook := some h, trace := b.trace ++ [Event.setupInstalled] }

/-- tauri_plugin_shell::init(). -/
def tauri_plugin_shell.init : Plugin := Plugin.shell

/-- tauri_plugin_opener::init(). -/
def tauri_plugin_opener.init : Plugin := Plugin.opener

/-- tauri_plugin_notification::init(). -/
def tauri_plugin_notification.init : Plugin := Plugin.notification

/-- tauri_plugin_dialog::init(). -/
def tauri_plugin_dialog.init : Plugin := Plugin.dialog

/-- tauri_plugin_fs::init(). -/
def tauri_plugin_fs.init : Plugin := Plugin.fs

/-- The setup closure from src-tauri/src/lib.rs:
`|_app: &mut App| { Ok(()) }` — it ignores the handle, performs no action,
and returns success with the handle unchanged. -/
def setupHook (α : Type) : α → Except String (Unit × α) :=
  fun _app => Except.ok ((), _app)

/-- The builder chain from the body of `run` in src-tauri/src/lib.rs:
`tauri::Builder::default().plugin(shell).plugin(opener).plugin(notification)
.plugin(dialog).plugin(fs).setup(hook)`. -/
def configuredBuilder (α : Type) : Builder α :=
  ((((((Builder.default α).plugin
    tauri_plugin_shell.init).plugin
    tauri_plugin_opener.init).plugin
    tauri_plugin_notification.init).plugin
    tauri_plugin_dialog.init).plugin
    tauri_plugin_fs.init).setup
    (setupHook α)

/-- The fixed diagnostic string passed to `.expect(...)` in
src-tauri/src/lib.rs. -/
def expectMsg : String := "error while running tauri application"

/-- Modelled from the spec: the host framework's run interface, which is
external to the repository (spec section 6).  Given the configured builder,
the app handle `a` the framework constructed, and whether the run loop fails
to start (`startFailure`), the framework invokes the installed setup hook
exactly once with the handle, then either starts the run loop — which blocks
for the remainder of the process lifetime, recorded as `runLoopEntered` with
result `Except.ok` — or yields the startup error; a hook failure also
surfaces as a startup error before the loop is entered. -/
def Builder.frameworkRun (b : Builder α) (a : α) (startFailure : Option String) :
    List Event × Except String Unit :=
  match b.setupHook with
  | none =>
      match startFailure with
      | some e => (b.trace, Except.error e)
      | none => (b.trace ++ [Event.runLoopEntered], Except.ok ())
  | some h =>
      match h a with
      | Except.error e => (b.trace ++ [Event.hookInvoked], Except.error e)
      | Except.ok _ =>
          match startFailure with
          | some e => (b.trace ++ [Event.hookInvoked], Except.error e)
          | none =>
              (b.trace ++ [Event.hookInvoked, Event.runLoopEntered], Except.ok ())

/-- The shared bootstrap `run` from src-tauri/src/lib.rs: build the configured
builder, hand it to the framework's run loop, and `.expect(expectMsg)` the
result — a startup error becomes a fatal process abort carrying the fixed
diagnostic, while success means the run loop has blocked and control never
comes back to the caller. -/
def run (α : Type) (a : α) (startFailure : Option String) : List Event × Outcome :=
  match (configuredBuilder α).frameworkRun a startFailure with
  | (tr, Except.error _e) =>
      (tr ++ [Event.aborted expectMsg], Outcome.fatalAbort expectMsg)
  | (tr, Except.ok _) => (tr, Outcome.blockedInRunLoop)

/-- The mobile entry point from src-tauri/src/mobile.rs:
`pub fn mobile_main() { notesdesktop_lib::run(); }` — it forwards
unconditionally to the shared bootstrap. -/
def mobile_main (α : Type) (a : α) (startFailure : Option String) :
    List Event × Outcome :=
  run α a startFailure

/-- The plugins registered during an invocation, read off its event trace in
registration order. -/
def registeredIn (tr : List Event) : List Plugin :=
  tr.filterMap fun e =>
    match e with
    | Event.pluginRegistered p => some p
    | _ => none

/-- The cleanup (plugin-unregistration) events of a trace. -/
def cleanupEvents (tr : List Event) : List Event :=
  tr.filter fun e =>
    match e with
    | Event.pluginUnregistered _ => true
    | _ => false

/-- Claim C1, counterexample: the bootstrap does not register six plugins —
the configured builder's plugin list has length 5, not 6 (the source chains
exactly five `.plugin(...)` calls). -/
theorem C1_not_six_plugins :
    ((configuredBuilder Unit).plugins.length == 6) = false := by decide

/-- Claim C1 (amended): for every invocation of the bootstrap `run`, exactly
FIVE named capability plugins are registered, in the same fixed order
[shell, opener, notification, dialog, fs] on every invocation. -/
theorem C1_five_plugins_fixed_order :
    ∀ (α : Type) (a : α) (s : Option String),
      registeredIn (run α a s).1 =
        [Plugin.shell, Plugin.opener, Plugin.notification, Plugin.dialog,
          Plugin.fs] ∧
      (registeredIn (run α a s).1).length = 5 := by
  intro α a s
  cases s <;> exact ⟨rfl, rfl⟩

/-- Claim C2: the set of plugins registered by the bootstrap is exactly the
fixed, statically-known set {shell, dialog, notification, fs, opener},
independent of the app handle and of the run-loop behaviour, and identical
between the desktop bootstrap `run` and the mobile entry `mobile_main`. -/
theorem C2_fixed_plugin_set :
    ∀ (α : Type) (a : α) (s : Option String) (p : Plugin),
      (p ∈ registeredIn (run α a s).1 ↔
        p ∈ [Plugin.shell, Plugin.dialog, Plugin.notification, Plugin.fs,
          Plugin.opener]) ∧
      registeredIn (mobile_main α a s).1 = registeredIn (run α a s).1 := by
  intro α a s p
  have h : registeredIn (run α a s).1 =
      [Plugin.shell, Plugin.opener, Plugin.notification, Plugin.dialog,
        Plugin.fs] := by
    cases s <;> rfl
  rw [h]
  refine ⟨by cases p <;> simp, ?_⟩
  cases s <;> rfl

/-- Claim C3: on every bootstrap invocation the installed setup hook is
invoked exactly once (one `hookInvoked` event in the trace), and for every
app handle it is invoked with, the hook performs no action and returns
success. -/
theorem C3_hook_once_and_succeeds :
    ∀ (α : Type) (a : α) (s : Option String),
      (run α a s).1.count Event.hookInvoked = 1 ∧
      setupHook α a = Except.ok ((), a) := by
  intro α a s
  cases s <;> exact ⟨rfl, rfl⟩

/-- Claim C4: the mobile entry point `mobile_main` is observably equivalent
to the shared bootstrap `run`: on every app handle and run-loop behaviour it
produces the identical event trace (same plugins, same order, same hook
events) and the identical outcome. -/
theorem C4_mobile_forwards_to_run :
    ∀ (α : Type) (a : α) (s : Option String),
      mobile_main α a s = run α a s := by
  intro α a s
  rfl

/-- Claim C5: if the framework's run loop fails to start (with any error
`e`), the bootstrap terminates the process via a fatal abort carrying the
fixed diagnostic "error while running tauri application"; the abort happens
exactly once, and this is the only error path — when the run loop starts,
the outcome is blocking in the run loop, not an abort. -/
theorem C5_fatal_abort_on_start_failure :
    ∀ (α : Type) (a : α) (e : String),
      (run α a (some e)).2 = Outcome.fatalAbort expectMsg ∧
      expectMsg = "error while running tauri application" ∧
      (run α a (some e)).1.count (Event.aborted expectMsg) = 1 ∧
      (run α a none).2 = Outcome.blockedInRunLoop := by
  intro α a e
  exact ⟨rfl, rfl, rfl, rfl⟩

/-- Claim C6: on successful startup the bootstrap never returns control to
its caller — the outcome is blocking in the framework's run loop; and on any
run-loop behaviour the outcome is either that block or a fatal abort, never
a normal return to the caller. -/
theorem C6_never_returns_on_success :
    ∀ (α : Type) (a : α) (s : Option String),
      (run α a none).2 = Outcome.blockedInRunLoop ∧
      ((run α a s).2 = Outcome.blockedInRunLoop ∨
        (run α a s).2 = Outcome.fatalAbort expectMsg) := by
  intro α a s
  cases s with
  | none => exact ⟨rfl, Or.inl rfl⟩
  | some e => exact ⟨rfl, Or.inr rfl⟩

/-- Claim C7: when the run loop fails to start, the process terminates with
no cleanup: the trace contains no plugin-unregistration event, all five
plugins remain registered exactly as they were, and the abort is the very
last event — no state-mutating step runs between the failure and the
abort. -/
theorem C7_no_cleanup_on_failure :
    ∀ (α : Type) (a : α) (e : String),
      cleanupEvents (run α a (some e)).1 = [] ∧
      registeredIn (run α a (some e)).1 =
        [Plugin.shell, Plugin.opener, Plugin.notification, Plugin.dialog,
          Plugin.fs] ∧
      (run α a (some e)).1.getLast? = some (Event.aborted expectMsg) := by
  intro α a e
  exact ⟨rfl, rfl, rfl⟩

/-- Claim C8: the bootstrap performs its steps in a fixed sequence — builder
construction, then the five plugin registrations in order, then installation
of the lifecycle hook, then the hook invocation, and only then entry into
the run loop (or the fatal abort when the loop fails to start).  The whole
event trace is a fixed list on every invocation, so no step is reordered,
repeated, or skipped. -/
theorem C8_fixed_step_sequence :
    ∀ (α : Type) (a : α) (e : String),
      (run α a none).1 =
        [Event.builderConstructed,
          Event.pluginRegistered Plugin.shell,
          Event.pluginRegistered Plugin.opener,
          Event.pluginRegistered Plugin.notification,
          Event.pluginRegistered Plugin.dialog,
          Event.pluginRegistered Plugin.fs,
          Event.setupInstalled,
          Event.hookInvoked,
          Event.runLoopEntered] ∧
      (run α a (some e)).1 =
        [Event.builderConstructed,
          Event.pluginRegistered Plugin.shell,
          Event.pluginRegistered Plugin.opener,
          Event.pluginRegistered Plugin.notification,
          Event.pluginRegistered Plugin.dialog,
          Event.pluginRegistered Plugin.fs,
          Event.setupInstalled,
          Event.hookInvoked,
          Event.aborted expectMsg] := by
  intro α a e
  exact ⟨rfl, rfl⟩

/-- Claim C9: a caller of the bootstrap can never observe a startup error as
a returned value — on every run-loop behaviour the outcome is either
blocking in the run loop or a process-terminating abort (never
`returnedToCaller`), and every startup failure in particular is converted
into the fatal abort rather than propagated. -/
theorem C9_errors_become_aborts_not_returns :
    ∀ (α : Type) (a : α) (s : Option String) (e : String),
      ((run α a s).2 = Outcome.blockedInRunLoop ∨
        (run α a s).2 = Outcome.fatalAbort expectMsg) ∧
      (run α a (some e)).2 = Outcome.fatalAbort expectMsg := by
  intro α a s e
  cases s with
  | none => exact ⟨Or.inl rfl, rfl⟩
  | some e2 => exact ⟨Or.inr rfl, rfl⟩

/-- Claim C10: the setup hook neither reads nor mutates the app handle: for
every handle the state after the hook runs is the handle it was given,
unchanged, and the hook's success value is the same for any two handles (its
result is independent of the handle's contents). -/
theorem C10_hook_is_frame :
    ∀ (α : Type) (a b : α),
      setupHook α a = Except.ok ((), a) ∧
      (setupHook α a).map Prod.fst = (setupHook α b).map Prod.fst := by
  intro α a b
  exact ⟨rfl, rfl⟩
